import Mathlib

/-!
# Verification of the `LendingPlatform` loan ledger

Shallow embedding of the Solidity contract `LendingPlatform` (the enum-based
revision that tracks both `loanRequests[id].isActive` and `requestStatus[id]`,
together with `requestCreatedAt[id]`), plus the earlier revision's
`cancelLoanRequest` (which zeroes the stored `collateralTokenId`).

Modelling conventions:
* `uint256` is modelled as `Nat`. Solidity 0.8 uses checked arithmetic (it
  reverts on overflow instead of wrapping), so every value that a call
  actually returns or stores is the exact mathematical value; `Nat` is the
  faithful model of the non-reverting executions.
* Addresses are `Nat` (`0` is the zero address).
* The three per-request mappings (`loanRequests`, `requestCreatedAt`,
  `requestStatus`) are keyed by the same id and written together, so they are
  bundled into one `RequestEntry` table `Nat → RequestEntry`; a never-written
  id maps to the all-zero default entry, exactly as a Solidity mapping does.
* Each external function becomes `Env → ChainState → ... → Except Err
  (ChainState × List Transfer)`. `require` failure and a failing external
  call (`call{ value }`, `transferFrom`) revert the whole transaction, which
  the embedding renders as `.error e`: the pre-state stays in force and no
  transfer is observable.  Whether an external transfer succeeds is decided
  by the environment oracle (`Env.ethOk`, `Env.nftOk`).  Because a revert
  discards all staged writes, checking the oracle before building the
  post-state is observationally identical to the source's write-then-revert
  order.
* `block.timestamp` is `Env.timestamp`, `msg.sender` is the `sender`
  argument, `msg.value` is the `value` argument, `address(this)` is
  `Env.self`.
-/

namespace LendingPlatform

/-- `uint256 public constant MAX_INTEREST_RATE = 7`. -/
def MAX_INTEREST_RATE : Nat := 7

/-- `uint256 public constant REQUEST_EXPIRY = 2 days` (= 172800 seconds). -/
def REQUEST_EXPIRY : Nat := 172800

/-- Addresses, modelled as naturals; `0` is the zero address. -/
abbrev Addr := Nat

/-- `enum RequestStatus { NONE, ACTIVE, FUNDED, CANCELLED, EXPIRED }`. -/
inductive RequestStatus where
  | NONE
  | ACTIVE
  | FUNDED
  | CANCELLED
  | EXPIRED
deriving DecidableEq, Repr

/-- `struct LoanRequest` of the enum-based revision. -/
structure LoanRequest where
  borrower : Addr
  loanAmount : Nat
  durationInDays : Nat
  interestRate : Nat
  collateralTokenId : Nat
  isActive : Bool
deriving DecidableEq, Repr

/-- `struct ActiveLoan`. -/
structure ActiveLoan where
  borrower : Addr
  lender : Addr
  loanAmount : Nat
  collateralTokenId : Nat
  startTimestamp : Nat
  endTime : Nat
  interestRate : Nat
  isRepaid : Bool
deriving DecidableEq, Repr

/-- One slot of the per-request storage: `loanRequests[id]`,
`requestCreatedAt[id]` and `requestStatus[id]` bundled (they share the key
and are always written together). -/
structure RequestEntry where
  req : LoanRequest
  createdAt : Nat
  status : RequestStatus
deriving DecidableEq, Repr

/-- Default value of a `LoanRequest` mapping slot that was never written. -/
def defaultLoanRequest : LoanRequest :=
  { borrower := 0, loanAmount := 0, durationInDays := 0, interestRate := 0
  , collateralTokenId := 0, isActive := false }

/-- Default value of a request slot that was never written. -/
def defaultRequestEntry : RequestEntry :=
  { req := defaultLoanRequest, createdAt := 0, status := RequestStatus.NONE }

/-- Default value of an `ActiveLoan` mapping slot that was never written. -/
def defaultActiveLoan : ActiveLoan :=
  { borrower := 0, lender := 0, loanAmount := 0, collateralTokenId := 0
  , startTimestamp := 0, endTime := 0, interestRate := 0, isRepaid := false }

/-- The contract's storage: the two mappings with their counters. -/
structure ChainState where
  loanRequests : Nat → RequestEntry
  totalRequests : Nat
  activeLoans : Nat → ActiveLoan
  totalLoans : Nat

/-- Storage right after the constructor ran: all mappings empty. -/
def initialState : ChainState :=
  { loanRequests := fun _ => defaultRequestEntry
  , totalRequests := 0
  , activeLoans := fun _ => defaultActiveLoan
  , totalLoans := 0 }

/-- The execution environment of one call: the block timestamp, the
contract's own address, and the oracles deciding whether each external call
(ETH `call{ value }`, ERC-721 `transferFrom`) succeeds, plus the ERC-721
view functions consulted by `createLoanRequest`. -/
structure Env where
  timestamp : Nat
  self : Addr
  ethOk : Addr → Nat → Bool
  nftOk : Addr → Addr → Nat → Bool
  ownerOf : Nat → Addr
  getApproved : Nat → Addr
  approvedForAll : Addr → Addr → Bool

/-- The distinct revert reasons of the contract, one constructor per revert
string (plus `NftTransferFailed` for a revert raised inside the ERC-721
`transferFrom` itself). -/
inductive Err where
  | LoanAmountZero            -- "Loan amount must be greater than 0"
  | DurationZero              -- "Duration must be greater than 0"
  | InvalidInterestRate       -- "Invalid interest rate"
  | NotNftOwner               -- "Not owner of NFT"
  | NftNotApproved            -- "NFT not approved"
  | RequestNotActive          -- "Request is not active"
  | StatusNotActive           -- "Not ACTIVE"
  | MissingCreatedAt          -- "Missing createdAt"
  | RequestExpired            -- "Request expired"
  | WrongValueSent            -- "Must send exact loan amount"
  | EthTransferFailed         -- "ETH transfer failed"
  | OnlyBorrowerCanCancel     -- "Only borrower can cancel"
  | NotExpiredYet             -- "Not expired yet"
  | LoanAlreadyClosed         -- "Loan already closed"
  | OnlyBorrowerCanRepay      -- "Only borrower can repay"
  | LoanIsExpired             -- "Loan is expired"
  | InsufficientRepayAmount   -- "Insufficient repay amount"
  | EthTransferToLenderFailed -- "ETH transfer to lender failed"
  | RefundFailed              -- "Refund failed"
  | LoanNotExpired            -- "Loan not expired"
  | OnlyLenderCanLiquidate    -- "Only lender can liquidate"
  | NftTransferFailed         -- revert inside collateralNft.transferFrom
deriving DecidableEq, Repr

/-- An observable asset movement performed by a successful call. -/
inductive Transfer where
  | eth (dst : Addr) (amount : Nat)
  | nft (src : Addr) (dst : Addr) (tokenId : Nat)
deriving DecidableEq, Repr

/-- Write one request slot (`loanRequests[id] = e` together with its bundled
`requestCreatedAt` / `requestStatus` columns). -/
def setRequest (s : ChainState) (id : Nat) (e : RequestEntry) : ChainState :=
  { s with loanRequests := fun j => if j = id then e else s.loanRequests j }

/-- Write one `activeLoans` slot. -/
def setLoan (s : ChainState) (id : Nat) (l : ActiveLoan) : ChainState :=
  { s with activeLoans := fun j => if j = id then l else s.activeLoans j }

/-- `createLoanRequest(_loanAmount, _durationInDays, _interestRate,
_collateralTokenId)` of the enum-based revision (part_006 lines 407-455). -/
def createLoanRequest (env : Env) (s : ChainState) (sender : Addr)
    (loanAmount durationInDays interestRate collateralTokenId : Nat) :
    Except Err (ChainState × List Transfer) :=
  if ¬ 0 < loanAmount then .error .LoanAmountZero
  else if ¬ 0 < durationInDays then .error .DurationZero
  else if ¬ (0 < interestRate ∧ interestRate ≤ MAX_INTEREST_RATE) then
    .error .InvalidInterestRate
  else if ¬ env.ownerOf collateralTokenId = sender then .error .NotNftOwner
  else if ¬ (env.getApproved collateralTokenId = env.self ∨
             env.approvedForAll sender env.self = true) then
    .error .NftNotApproved
  else if ¬ env.nftOk sender env.self collateralTokenId = true then
    .error .NftTransferFailed
  else
    let requestId := s.totalRequests
    let entry : RequestEntry :=
      { req :=
          { borrower := sender, loanAmount := loanAmount
          , durationInDays := durationInDays, interestRate := interestRate
          , collateralTokenId := collateralTokenId, isActive := true }
      , createdAt := env.timestamp
      , status := RequestStatus.ACTIVE }
    .ok (setRequest { s with totalRequests := s.totalRequests + 1 } requestId entry,
         [Transfer.nft sender env.self collateralTokenId])

/-- `expireLoanRequest(_requestId)` (part_006 lines 458-475).  Note the
caller is present but never inspected: the action is permissionless. -/
def expireLoanRequest (env : Env) (s : ChainState) (_sender : Addr)
    (requestId : Nat) : Except Err (ChainState × List Transfer) :=
  let entry := s.loanRequests requestId
  if ¬ entry.req.isActive = true then .error .RequestNotActive
  else if ¬ entry.status = RequestStatus.ACTIVE then .error .StatusNotActive
  else if entry.createdAt = 0 then .error .MissingCreatedAt
  else if ¬ entry.createdAt + REQUEST_EXPIRY < env.timestamp then
    .error .NotExpiredYet
  else if ¬ env.nftOk env.self entry.req.borrower entry.req.collateralTokenId = true then
    .error .NftTransferFailed
  else
    .ok (setRequest s requestId
          { entry with
              req := { entry.req with isActive := false },
              status := RequestStatus.EXPIRED },
         [Transfer.nft env.self entry.req.borrower entry.req.collateralTokenId])

/-- `cancelLoanRequest(_requestId)` of the enum-based revision
(part_006 lines 478-491).  The NFT goes back to `msg.sender`, who is the
borrower by the second `require`. -/
def cancelLoanRequest (env : Env) (s : ChainState) (sender : Addr)
    (requestId : Nat) : Except Err (ChainState × List Transfer) :=
  let entry := s.loanRequests requestId
  if ¬ entry.req.isActive = true then .error .RequestNotActive
  else if ¬ entry.req.borrower = sender then .error .OnlyBorrowerCanCancel
  else if ¬ entry.status = RequestStatus.ACTIVE then .error .StatusNotActive
  else if ¬ env.nftOk env.self sender entry.req.collateralTokenId = true then
    .error .NftTransferFailed
  else
    .ok (setRequest s requestId
          { entry with
              req := { entry.req with isActive := false },
              status := RequestStatus.CANCELLED },
         [Transfer.nft env.self sender entry.req.collateralTokenId])

/-- `fundLoanRequest(_requestId)` (part_006 lines 494-533): creates the
`ActiveLoan`, flips the request to `FUNDED` and forwards `msg.value` to the
borrower; the forwarding `call` failing reverts everything. -/
def fundLoanRequest (env : Env) (s : ChainState) (sender : Addr)
    (value : Nat) (requestId : Nat) : Except Err (ChainState × List Transfer) :=
  let entry := s.loanRequests requestId
  if ¬ entry.req.isActive = true then .error .RequestNotActive
  else if ¬ entry.status = RequestStatus.ACTIVE then .error .StatusNotActive
  else if entry.createdAt = 0 then .error .MissingCreatedAt
  else if ¬ env.timestamp ≤ entry.createdAt + REQUEST_EXPIRY then
    .error .RequestExpired
  else if ¬ value = entry.req.loanAmount then .error .WrongValueSent
  else if ¬ env.ethOk entry.req.borrower value = true then
    .error .EthTransferFailed
  else
    let loanId := s.totalLoans
    let loan : ActiveLoan :=
      { borrower := entry.req.borrower, lender := sender
      , loanAmount := entry.req.loanAmount
      , collateralTokenId := entry.req.collateralTokenId
      , startTimestamp := env.timestamp
      , endTime := env.timestamp + entry.req.durationInDays * 86400
      , interestRate := entry.req.interestRate
      , isRepaid := false }
    let s1 := setLoan { s with totalLoans := s.totalLoans + 1 } loanId loan
    let s2 := setRequest s1 requestId
        { entry with
            req := { entry.req with isActive := false },
            status := RequestStatus.FUNDED }
    .ok (s2, [Transfer.eth entry.req.borrower value])

/-- `_calculateRepayAmount(loan)` (part_006 lines 536-540):
`principal + (principal * interestRate) / 100`, `/` being the flooring
division of `uint256`. -/
def calculateRepayAmount (loan : ActiveLoan) : Nat :=
  let principal := loan.loanAmount
  let interest := principal * loan.interestRate / 100
  principal + interest

/-- `getRepayAmount(_loanId)` (part_006 lines 542-546). -/
def getRepayAmount (s : ChainState) (loanId : Nat) : Except Err Nat :=
  let loan := s.activeLoans loanId
  if loan.isRepaid = true then .error .LoanAlreadyClosed
  else .ok (calculateRepayAmount loan)

/-- `repayLoan(_loanId)` (part_006 lines 549-572): pays `required` to the
lender, refunds any excess `msg.value` to the caller, returns the collateral
to the borrower and closes the loan; any failing leg reverts everything. -/
def repayLoan (env : Env) (s : ChainState) (sender : Addr) (value : Nat)
    (loanId : Nat) : Except Err (ChainState × List Transfer) :=
  let loan := s.activeLoans loanId
  if ¬ sender = loan.borrower then .error .OnlyBorrowerCanRepay
  else if loan.isRepaid = true then .error .LoanAlreadyClosed
  else if ¬ env.timestamp ≤ loan.endTime then .error .LoanIsExpired
  else
    let required := calculateRepayAmount loan
    if ¬ required ≤ value then .error .InsufficientRepayAmount
    else if ¬ env.ethOk loan.lender required = true then
      .error .EthTransferToLenderFailed
    else if required < value ∧ ¬ env.ethOk sender (value - required) = true then
      .error .RefundFailed
    else if ¬ env.nftOk env.self loan.borrower loan.collateralTokenId = true then
      .error .NftTransferFailed
    else
      .ok (setLoan s loanId { loan with isRepaid := true },
           Transfer.eth loan.lender required ::
             ((if required < value then [Transfer.eth sender (value - required)]
               else []) ++
              [Transfer.nft env.self loan.borrower loan.collateralTokenId]))

/-- `liquidateExpiredLoan(_loanId)` (part_006 lines 575-587). -/
def liquidateExpiredLoan (env : Env) (s : ChainState) (sender : Addr)
    (loanId : Nat) : Except Err (ChainState × List Transfer) :=
  let loan := s.activeLoans loanId
  if loan.isRepaid = true then .error .LoanAlreadyClosed
  else if ¬ loan.endTime < env.timestamp then .error .LoanNotExpired
  else if ¬ sender = loan.lender then .error .OnlyLenderCanLiquidate
  else if ¬ env.nftOk env.self loan.lender loan.collateralTokenId = true then
    .error .NftTransferFailed
  else
    .ok (setLoan s loanId { loan with isRepaid := true },
         [Transfer.nft env.self loan.lender loan.collateralTokenId])

/-- `true` exactly on a non-reverting result. -/
def exOk {α : Type} : Except Err α → Bool
  | .ok _ => true
  | .error _ => false

/-- The storage observable after a call: the new storage on success, the
untouched pre-state on a revert. -/
def execOf (s : ChainState) : Except Err (ChainState × List Transfer) → ChainState
  | .ok r => r.1
  | .error _ => s

/-- One external transaction against the ledger. -/
inductive Op where
  | create (sender loanAmount durationInDays interestRate collateralTokenId : Nat)
  | expire (sender requestId : Nat)
  | cancel (sender requestId : Nat)
  | fund (sender value requestId : Nat)
  | repay (sender value loanId : Nat)
  | liquidate (sender loanId : Nat)

/-- Dispatch one transaction. -/
def step (env : Env) (s : ChainState) : Op → Except Err (ChainState × List Transfer)
  | .create sender a d r c => createLoanRequest env s sender a d r c
  | .expire sender id => expireLoanRequest env s sender id
  | .cancel sender id => cancelLoanRequest env s sender id
  | .fund sender v id => fundLoanRequest env s sender v id
  | .repay sender v id => repayLoan env s sender v id
  | .liquidate sender id => liquidateExpiredLoan env s sender id

/-- The storage observable after one transaction (reverts keep the
pre-state). -/
def execStep (env : Env) (s : ChainState) (op : Op) : ChainState :=
  execOf s (step env s op)

/-- The storages reachable from the freshly constructed contract by any
sequence of transactions in any environments. -/
inductive Reachable : ChainState → Prop
  | init : Reachable initialState
  | next (env : Env) (op : Op) (s : ChainState) :
      Reachable s → Reachable (execStep env s op)

/-! ## The earlier (boolean-only) revision's `cancelLoanRequest`

Part_006 lines 99-113: this revision's cancel additionally does
`request.collateralTokenId = 0` after capturing the token id for the
transfer.  Only the pieces needed to settle the collateral-immutability
claim are embedded. -/

/-- `LoanTypes.LoanRequest` of the earlier revision. -/
structure LoanRequestV1 where
  borrower : Addr
  loanAmount : Nat
  duration : Nat
  interestRate : Nat
  isActive : Bool
  collateralTokenId : Nat
deriving DecidableEq, Repr

/-- Default slot value of the earlier revision's mapping. -/
def defaultLoanRequestV1 : LoanRequestV1 :=
  { borrower := 0, loanAmount := 0, duration := 0, interestRate := 0
  , isActive := false, collateralTokenId := 0 }

/-- The earlier revision's request storage. -/
structure StateV1 where
  loanRequests : Nat → LoanRequestV1
  totalRequests : Nat

/-- `cancelLoanRequest(_requestId)` of the earlier revision (part_006 lines
99-113): flips `isActive`, zeroes the stored `collateralTokenId`, and sends
the NFT back to the caller. -/
def cancelLoanRequestV1 (env : Env) (s : StateV1) (sender : Addr)
    (requestId : Nat) : Except Err (StateV1 × List Transfer) :=
  let request := s.loanRequests requestId
  if ¬ request.isActive = true then .error .RequestNotActive
  else if ¬ request.borrower = sender then .error .OnlyBorrowerCanCancel
  else
    let tokenId := request.collateralTokenId
    let request1 := { request with isActive := false, collateralTokenId := 0 }
    if ¬ env.nftOk env.self sender tokenId = true then .error .NftTransferFailed
    else
      .ok ({ s with loanRequests :=
               fun j => if j = requestId then request1 else s.loanRequests j },
           [Transfer.nft env.self sender tokenId])

/-- Observable storage of the earlier revision after a call. -/
def execOfV1 (s : StateV1) : Except Err (StateV1 × List Transfer) → StateV1
  | .ok r => r.1
  | .error _ => s

/-! ## Concrete fixtures used by witnesses and counterexamples -/

/-- An environment where every external transfer succeeds; the contract's
address is `77` and the block timestamp is `1000`. -/
def envAll : Env :=
  { timestamp := 1000, self := 77
  , ethOk := fun _ _ => true, nftOk := fun _ _ _ => true
  , ownerOf := fun _ => 1, getApproved := fun _ => 77
  , approvedForAll := fun _ _ => true }

/-- `envAll` at block timestamp `t`. -/
def envAt (t : Nat) : Env := { envAll with timestamp := t }

/-- An environment whose ETH `call{ value }` legs all fail. -/
def envNoEth : Env := { envAll with ethOk := fun _ _ => false }

/-- An environment whose ERC-721 `transferFrom` legs all fail. -/
def envNoNft : Env := { envAll with nftOk := fun _ _ _ => false }

/-- A live request: borrower `1`, principal `100`, 3 days, 5 %, token `7`,
created at time `1000`. -/
def sampleEntry : RequestEntry :=
  { req :=
      { borrower := 1, loanAmount := 100, durationInDays := 3
      , interestRate := 5, collateralTokenId := 7, isActive := true }
  , createdAt := 1000
  , status := RequestStatus.ACTIVE }

/-- Storage holding only the live request `sampleEntry` at id `0`. -/
def state1 : ChainState :=
  setRequest { initialState with totalRequests := 1 } 0 sampleEntry

/-- `sampleEntry` after a cancellation. -/
def cancelledEntry : RequestEntry :=
  { sampleEntry with
      req := { sampleEntry.req with isActive := false },
      status := RequestStatus.CANCELLED }

/-- Storage holding only the already-cancelled request at id `0`. -/
def stateCancelled : ChainState :=
  setRequest { initialState with totalRequests := 1 } 0 cancelledEntry

/-- An open loan: borrower `1`, lender `2`, principal `1000000`, 5 %,
token `7`, deadline `5000`. -/
def sampleLoan : ActiveLoan :=
  { borrower := 1, lender := 2, loanAmount := 1000000, collateralTokenId := 7
  , startTimestamp := 0, endTime := 5000, interestRate := 5, isRepaid := false }

/-- Storage holding only the open loan `sampleLoan` at id `0`. -/
def stateLoan : ChainState :=
  setLoan { initialState with totalLoans := 1 } 0 sampleLoan

/-- Storage holding only the already-closed version of `sampleLoan`. -/
def stateLoanClosed : ChainState :=
  setLoan { initialState with totalLoans := 1 } 0 { sampleLoan with isRepaid := true }

/-- Storage holding only an open loan with principal `7` at 7 %. -/
def stateLoan7 : ChainState :=
  setLoan { initialState with totalLoans := 1 } 0
    { sampleLoan with loanAmount := 7, interestRate := 7 }

/-- The inductive storage invariant: all slots beyond the counters still
hold their mapping default, and on every created request the boolean
`loanRequests[id].isActive` agrees with the enum `requestStatus[id]`. -/
def Inv (s : ChainState) : Prop :=
  (∀ id, s.totalRequests ≤ id → s.loanRequests id = defaultRequestEntry) ∧
  (∀ id, id < s.totalRequests →
     ((s.loanRequests id).req.isActive = true ↔
      (s.loanRequests id).status = RequestStatus.ACTIVE))

/-- A live request of the earlier revision with `collateralTokenId = 5`. -/
def sampleV1 : LoanRequestV1 :=
  { borrower := 1, loanAmount := 100, duration := 30, interestRate := 5
  , isActive := true, collateralTokenId := 5 }

/-- Earlier-revision storage holding only `sampleV1` at id `0`. -/
def stateV1 : StateV1 :=
  { loanRequests := fun j => if j = 0 then sampleV1 else defaultLoanRequestV1
  , totalRequests := 1 }

/-! ## Helper lemmas -/

/-- A reverting call leaves the observable storage untouched. -/
theorem execOf_eq_of_not_ok {s : ChainState}
    {r : Except Err (ChainState × List Transfer)} (h : exOk r = false) :
    execOf s r = s := by
  cases r with
  | ok _ => simp [exOk] at h
  | error _ => rfl

/-- The freshly constructed contract satisfies the storage invariant. -/
theorem inv_initialState : Inv initialState := by
  constructor
  · intro id _
    rfl
  · intro id hid
    exact absurd hid (Nat.not_lt_zero id)

/-- Every transaction preserves the storage invariant. -/
theorem inv_execStep (env : Env) (op : Op) (s : ChainState) (h : Inv s) :
    Inv (execStep env s op) := by
  obtain ⟨h1, h2⟩ := h
  cases op with
  | create sender a d r c =>
    simp only [execStep, step, createLoanRequest]
    split_ifs with g1 g2 g3 g4 g5 g6
    all_goals try exact ⟨h1, h2⟩
    refine ⟨?_, ?_⟩
    · intro id hid
      simp only [execOf, setRequest] at *
      have hne : ¬ id = s.totalRequests := by omega
      simp only [hne, if_false]
      exact h1 id (by omega)
    · intro id hid
      simp only [execOf, setRequest] at *
      by_cases he : id = s.totalRequests
      · simp [he]
      · simp only [he, if_false]
        exact h2 id (by omega)
  | expire sender id0 =>
    simp only [execStep, step, expireLoanRequest]
    split_ifs with g1 g2 g3 g4 g5
    all_goals try exact ⟨h1, h2⟩
    have hlt : id0 < s.totalRequests := by
      by_contra hge
      have := h1 id0 (by omega)
      rw [this] at g1
      simp [defaultRequestEntry, defaultLoanRequest] at g1
    refine ⟨?_, ?_⟩
    · intro id hid
      simp only [execOf, setRequest] at *
      have hne : ¬ id = id0 := by omega
      simp only [hne, if_false]
      exact h1 id hid
    · intro id hid
      simp only [execOf, setRequest] at *
      by_cases he : id = id0
      · simp [he]
      · simp only [he, if_false]
        exact h2 id hid
  | cancel sender id0 =>
    simp only [execStep, step, cancelLoanRequest]
    split_ifs with g1 g2 g3 g4
    all_goals try exact ⟨h1, h2⟩
    have hlt : id0 < s.totalRequests := by
      by_contra hge
      have := h1 id0 (by omega)
      rw [this] at g1
      simp [defaultRequestEntry, defaultLoanRequest] at g1
    refine ⟨?_, ?_⟩
    · intro id hid
      simp only [execOf, setRequest] at *
      have hne : ¬ id = id0 := by omega
      simp only [hne, if_false]
      exact h1 id hid
    · intro id hid
      simp only [execOf, setRequest] at *
      by_cases he : id = id0
      · simp [he]
      · simp only [he, if_false]
        exact h2 id hid
  | fund sender v id0 =>
    simp only [execStep, step, fundLoanRequest]
    split_ifs with g1 g2 g3 g4 g5 g6
    all_goals try exact ⟨h1, h2⟩
    have hlt : id0 < s.totalRequests := by
      by_contra hge
      have := h1 id0 (by omega)
      rw [this] at g1
      simp [defaultRequestEntry, defaultLoanRequest] at g1
    refine ⟨?_, ?_⟩
    · intro id hid
      simp only [execOf, setRequest, setLoan] at *
      have hne : ¬ id = id0 := by omega
      simp only [hne, if_false]
      exact h1 id hid
    · intro id hid
      simp only [execOf, setRequest, setLoan] at *
      by_cases he : id = id0
      · simp [he]
      · simp only [he, if_false]
        exact h2 id hid
  | repay sender v id0 =>
    simp only [execStep, step, repayLoan]
    split_ifs with g1 g2 g3 g4 g5 g6 g7
    all_goals exact ⟨h1, h2⟩
  | liquidate sender id0 =>
    simp only [execStep, step, liquidateExpiredLoan]
    split_ifs with g1 g2 g3 g4
    all_goals exact ⟨h1, h2⟩

/-- Every reachable storage satisfies the invariant. -/
theorem reachable_inv {s : ChainState} (h : Reachable s) : Inv s := by
  induction h with
  | init => exact inv_initialState
  | next env op s hs ih => exact inv_execStep env op s ih

/-! ## The claims -/

/-- C3: for every open loan, `getRepayAmount` returns
`principal + floor(principal * interestRatePercent / 100)` in exact integer
arithmetic (Nat division rounds down, non-compounding); in particular
principal `1000000` at rate `5` yields `1050000`, and principal `7` at
rate `7` yields `7`. -/
theorem getRepayAmount_simple_interest (s : ChainState) (loanId : Nat)
    (hOpen : (s.activeLoans loanId).isRepaid = false) :
    (getRepayAmount s loanId =
       .ok ((s.activeLoans loanId).loanAmount +
            (s.activeLoans loanId).loanAmount * (s.activeLoans loanId).interestRate / 100)) ∧
    getRepayAmount stateLoan 0 = .ok 1050000 ∧
    getRepayAmount stateLoan7 0 = .ok 7 := by
  refine ⟨?_, rfl, rfl⟩
  simp [getRepayAmount, calculateRepayAmount, hOpen]

/-- Witness for C3 at the concrete open loan `stateLoan`. -/
theorem getRepayAmount_simple_interest_witness :
    getRepayAmount stateLoan 0 =
      .ok ((stateLoan.activeLoans 0).loanAmount +
           (stateLoan.activeLoans 0).loanAmount * (stateLoan.activeLoans 0).interestRate / 100) :=
  (getRepayAmount_simple_interest stateLoan 0 rfl).1

/-- C6: a successful `repayLoan` with `valueSent ≥ repayAmount` pays exactly
`repayAmount` to the lender, refunds exactly `valueSent − repayAmount` to the
caller (no refund transfer when they are equal), closes the loan, and moves
the collateral to the borrower. -/
theorem repayLoan_overpayment (env : Env) (s : ChainState) (value loanId : Nat)
    (hOpen : (s.activeLoans loanId).isRepaid = false)
    (hTime : env.timestamp ≤ (s.activeLoans loanId).endTime)
    (hVal : calculateRepayAmount (s.activeLoans loanId) ≤ value)
    (hEthL : env.ethOk (s.activeLoans loanId).lender
       (calculateRepayAmount (s.activeLoans loanId)) = true)
    (hEthR : env.ethOk (s.activeLoans loanId).borrower
       (value - calculateRepayAmount (s.activeLoans loanId)) = true)
    (hNft : env.nftOk env.self (s.activeLoans loanId).borrower
       (s.activeLoans loanId).collateralTokenId = true) :
    repayLoan env s (s.activeLoans loanId).borrower value loanId =
      .ok (setLoan s loanId { s.activeLoans loanId with isRepaid := true },
           Transfer.eth (s.activeLoans loanId).lender
               (calculateRepayAmount (s.activeLoans loanId)) ::
             ((if calculateRepayAmount (s.activeLoans loanId) < value then
                 [Transfer.eth (s.activeLoans loanId).borrower
                    (value - calculateRepayAmount (s.activeLoans loanId))]
               else []) ++
              [Transfer.nft env.self (s.activeLoans loanId).borrower
                 (s.activeLoans loanId).collateralTokenId])) := by
  simp [repayLoan, hOpen, hTime, hVal, hEthL, hEthR, hNft]

/-- Witness for C6: repayAmount `1050000`, `1100000` sent, lender receives
`1050000`, the caller is refunded exactly `50000`, the loan closes and the
collateral returns to the borrower. -/
theorem repayLoan_overpayment_witness :
    repayLoan envAll stateLoan 1 1100000 0 =
      .ok (setLoan stateLoan 0 { sampleLoan with isRepaid := true },
           [Transfer.eth 2 1050000, Transfer.eth 1 50000, Transfer.nft 77 1 7]) := by
  have h := repayLoan_overpayment envAll stateLoan 1100000 0 rfl (by decide)
    (by decide) rfl rfl rfl
  simpa using h

/-- C8: `expireLoanRequest` is permissionless — for every caller identity,
if the request is live and the window has lapsed, the call succeeds, flips
the status to `EXPIRED`, and transfers the collateral to the request's
borrower (the result does not depend on the caller at all). -/
theorem expireLoanRequest_permissionless (env : Env) (s : ChainState)
    (caller requestId : Nat)
    (hAct : (s.loanRequests requestId).req.isActive = true)
    (hSt : (s.loanRequests requestId).status = RequestStatus.ACTIVE)
    (hCr : (s.loanRequests requestId).createdAt ≠ 0)
    (hT : (s.loanRequests requestId).createdAt + REQUEST_EXPIRY < env.timestamp)
    (hNft : env.nftOk env.self (s.loanRequests requestId).req.borrower
       (s.loanRequests requestId).req.collateralTokenId = true) :
    expireLoanRequest env s caller requestId =
      .ok (setRequest s requestId
             { s.loanRequests requestId with
                 req := { (s.loanRequests requestId).req with isActive := false },
                 status := RequestStatus.EXPIRED },
           [Transfer.nft env.self (s.loanRequests requestId).req.borrower
              (s.loanRequests requestId).req.collateralTokenId]) ∧
    (∀ c1 c2 : Addr, expireLoanRequest env s c1 requestId =
       expireLoanRequest env s c2 requestId) := by
  refine ⟨?_, fun c1 c2 => rfl⟩
  simp [expireLoanRequest, hAct, hSt, hCr, hT, hNft]

/-- Witness for C8 at caller `99`, who is neither the borrower `1` nor any
lender: the expired collateral still goes to the borrower. -/
theorem expireLoanRequest_permissionless_witness :
    expireLoanRequest (envAt 173801) state1 99 0 =
      .ok (setRequest state1 0
             { state1.loanRequests 0 with
                 req := { (state1.loanRequests 0).req with isActive := false },
                 status := RequestStatus.EXPIRED },
           [Transfer.nft 77 1 7]) ∧
    (∀ c1 c2 : Addr, expireLoanRequest (envAt 173801) state1 c1 0 =
       expireLoanRequest (envAt 173801) state1 c2 0) :=
  expireLoanRequest_permissionless (envAt 173801) state1 99 0 rfl rfl
    (by decide) (by decide) rfl

/-- C4: funding-window boundary.  With the exact principal sent,
`fundLoanRequest` succeeds at `createdAt + REQUEST_EXPIRY` (172800 s) and
fails with the window-expired error at any strictly later time, while
`expireLoanRequest` fails at any time up to and including that boundary: at
the boundary instant, fund is legal and expire is not. -/
theorem fund_window_boundary (env : Env) (s : ChainState)
    (sender caller value requestId : Nat)
    (hAct : (s.loanRequests requestId).req.isActive = true)
    (hSt : (s.loanRequests requestId).status = RequestStatus.ACTIVE)
    (hCr : (s.loanRequests requestId).createdAt ≠ 0)
    (hVal : value = (s.loanRequests requestId).req.loanAmount)
    (hEth : env.ethOk (s.loanRequests requestId).req.borrower value = true) :
    REQUEST_EXPIRY = 172800 ∧
    exOk (fundLoanRequest
        { env with timestamp := (s.loanRequests requestId).createdAt + REQUEST_EXPIRY }
        s sender value requestId) = true ∧
    (∀ t, (s.loanRequests requestId).createdAt + REQUEST_EXPIRY < t →
       fundLoanRequest { env with timestamp := t } s sender value requestId =
         .error .RequestExpired) ∧
    (∀ t, t ≤ (s.loanRequests requestId).createdAt + REQUEST_EXPIRY →
       expireLoanRequest { env with timestamp := t } s caller requestId =
         .error .NotExpiredYet) := by
  subst hVal
  refine ⟨rfl, ?_, ?_, ?_⟩
  · simp [fundLoanRequest, exOk, hAct, hSt, hCr, hEth]
  · intro t ht
    have hnle : ¬ t ≤ (s.loanRequests requestId).createdAt + REQUEST_EXPIRY := by omega
    simp [fundLoanRequest, hAct, hSt, hCr, hnle]
  · intro t ht
    have hnlt : ¬ (s.loanRequests requestId).createdAt + REQUEST_EXPIRY < t := by omega
    simp [expireLoanRequest, hAct, hSt, hCr, hnlt]

/-- Witness for C4 at the concrete live request `state1`
(`createdAt = 1000`): fund succeeds at `173800`, fails at `173801` with the
window-expired error, and expire fails at `173800`. -/
theorem fund_window_boundary_witness :
    exOk (fundLoanRequest { envAll with timestamp := (state1.loanRequests 0).createdAt + REQUEST_EXPIRY }
        state1 2 100 0) = true ∧
    fundLoanRequest { envAll with timestamp := 173801 } state1 2 100 0 =
      .error .RequestExpired ∧
    expireLoanRequest { envAll with timestamp := 173800 } state1 99 0 =
      .error .NotExpiredYet := by
  have h := fund_window_boundary envAll state1 2 99 100 0 rfl rfl (by decide) rfl rfl
  exact ⟨h.2.1, h.2.2.1 173801 (by decide), h.2.2.2 173800 (by decide)⟩

/-- C2: deadline tie-break.  For an open loan with all other preconditions
met, `repayLoan` succeeds exactly when `t ≤ endTime` and
`liquidateExpiredLoan` succeeds exactly when `t > endTime`; at every instant
exactly one of the two closing actions is time-eligible, the boundary
`t = endTime` belonging to repay, while at `endTime + 1` repay fails with
the loan-expired error and liquidate succeeds. -/
theorem deadline_tie_break (env : Env) (s : ChainState) (value loanId t : Nat)
    (hOpen : (s.activeLoans loanId).isRepaid = false)
    (hVal : calculateRepayAmount (s.activeLoans loanId) ≤ value)
    (hEthL : env.ethOk (s.activeLoans loanId).lender
       (calculateRepayAmount (s.activeLoans loanId)) = true)
    (hEthR : env.ethOk (s.activeLoans loanId).borrower
       (value - calculateRepayAmount (s.activeLoans loanId)) = true)
    (hNftB : env.nftOk env.self (s.activeLoans loanId).borrower
       (s.activeLoans loanId).collateralTokenId = true)
    (hNftL : env.nftOk env.self (s.activeLoans loanId).lender
       (s.activeLoans loanId).collateralTokenId = true) :
    (exOk (repayLoan { env with timestamp := t } s
        (s.activeLoans loanId).borrower value loanId) = true ↔
      t ≤ (s.activeLoans loanId).endTime) ∧
    (exOk (liquidateExpiredLoan { env with timestamp := t } s
        (s.activeLoans loanId).lender loanId) = true ↔
      (s.activeLoans loanId).endTime < t) ∧
    (exOk (repayLoan { env with timestamp := t } s
        (s.activeLoans loanId).borrower value loanId) = true ↔
      ¬ exOk (liquidateExpiredLoan { env with timestamp := t } s
        (s.activeLoans loanId).lender loanId) = true) ∧
    exOk (repayLoan { env with timestamp := (s.activeLoans loanId).endTime } s
        (s.activeLoans loanId).borrower value loanId) = true ∧
    repayLoan { env with timestamp := (s.activeLoans loanId).endTime + 1 } s
        (s.activeLoans loanId).borrower value loanId = .error .LoanIsExpired ∧
    exOk (liquidateExpiredLoan { env with timestamp := (s.activeLoans loanId).endTime + 1 } s
        (s.activeLoans loanId).lender loanId) = true := by
  have hrep : ∀ u : Nat,
      exOk (repayLoan { env with timestamp := u } s
        (s.activeLoans loanId).borrower value loanId) = true ↔
      u ≤ (s.activeLoans loanId).endTime := by
    intro u
    by_cases hu : u ≤ (s.activeLoans loanId).endTime
    · simp [repayLoan, exOk, hOpen, hVal, hEthL, hEthR, hNftB, hu]
    · simp [repayLoan, exOk, hOpen, hu]
  have hliq : ∀ u : Nat,
      exOk (liquidateExpiredLoan { env with timestamp := u } s
        (s.activeLoans loanId).lender loanId) = true ↔
      (s.activeLoans loanId).endTime < u := by
    intro u
    by_cases hu : (s.activeLoans loanId).endTime < u
    · simp [liquidateExpiredLoan, exOk, hOpen, hNftL, hu]
    · simp [liquidateExpiredLoan, exOk, hOpen, hu]
  refine ⟨hrep t, hliq t, ?_, (hrep _).mpr le_rfl, ?_, (hliq _).mpr (Nat.lt_succ_self _)⟩
  · rw [hrep t, hliq t]
    omega
  · have hnle : ¬ (s.activeLoans loanId).endTime + 1 ≤ (s.activeLoans loanId).endTime := by
      omega
    simp [repayLoan, hOpen, hnle]

/-- Witness for C2 at the concrete open loan `stateLoan`
(`endTime = 5000`), instantiated at the boundary instant `t = 5000`. -/
theorem deadline_tie_break_witness :
    (exOk (repayLoan { envAll with timestamp := 5000 } stateLoan 1 1050000 0) = true ↔
      (5000 : Nat) ≤ 5000) ∧
    (exOk (liquidateExpiredLoan { envAll with timestamp := 5000 } stateLoan 2 0) = true ↔
      (5000 : Nat) < 5000) ∧
    exOk (repayLoan { envAll with timestamp := 5000 } stateLoan 1 1050000 0) = true ∧
    repayLoan { envAll with timestamp := 5001 } stateLoan 1 1050000 0 =
      .error .LoanIsExpired ∧
    exOk (liquidateExpiredLoan { envAll with timestamp := 5001 } stateLoan 2 0) = true := by
  have h := deadline_tie_break envAll stateLoan 1050000 0 5000 rfl (by decide)
    rfl rfl rfl rfl
  exact ⟨h.1, h.2.1, h.2.2.2.1, h.2.2.2.2.1, h.2.2.2.2.2⟩

/-- C1: atomicity of the mutating calls.  If the ETH forwarding leg of
`fundLoanRequest` fails, the whole call reverts and the observable storage
is the untouched pre-state (so the request is not `FUNDED` and no
`ActiveLoan` is observable); likewise `repayLoan` reverts whole whenever
any of its three transfer legs fails, and `liquidateExpiredLoan` whenever
its collateral transfer fails, so a loan is never observable as closed
without its transfers having succeeded. -/
theorem transfer_failure_atomicity (env : Env) (s : ChainState)
    (sender value id : Nat) :
    (env.ethOk (s.loanRequests id).req.borrower value = false →
       exOk (fundLoanRequest env s sender value id) = false ∧
       execOf s (fundLoanRequest env s sender value id) = s) ∧
    ((env.ethOk (s.activeLoans id).lender
        (calculateRepayAmount (s.activeLoans id)) = false ∨
      (calculateRepayAmount (s.activeLoans id) < value ∧
       env.ethOk sender (value - calculateRepayAmount (s.activeLoans id)) = false) ∨
      env.nftOk env.self (s.activeLoans id).borrower
        (s.activeLoans id).collateralTokenId = false) →
       exOk (repayLoan env s sender value id) = false ∧
       execOf s (repayLoan env s sender value id) = s ∧
       ((execOf s (repayLoan env s sender value id)).activeLoans id).isRepaid =
         (s.activeLoans id).isRepaid) ∧
    (env.nftOk env.self (s.activeLoans id).lender
        (s.activeLoans id).collateralTokenId = false →
       exOk (liquidateExpiredLoan env s sender id) = false ∧
       execOf s (liquidateExpiredLoan env s sender id) = s) := by
  refine ⟨?_, ?_, ?_⟩
  · intro hEth
    have hfail : exOk (fundLoanRequest env s sender value id) = false := by
      simp only [fundLoanRequest]
      split_ifs with g1 g2 g3 g4 g5 g6
      all_goals simp_all [exOk]
    exact ⟨hfail, execOf_eq_of_not_ok hfail⟩
  · intro hLeg
    have hfail : exOk (repayLoan env s sender value id) = false := by
      simp only [repayLoan]
      split_ifs with g1 g2 g3 g4 g5 g6 g7
      all_goals simp_all [exOk]
    refine ⟨hfail, execOf_eq_of_not_ok hfail, ?_⟩
    rw [execOf_eq_of_not_ok hfail]
  · intro hNft
    have hfail : exOk (liquidateExpiredLoan env s sender id) = false := by
      simp only [liquidateExpiredLoan]
      split_ifs with g1 g2 g3 g4
      all_goals simp_all [exOk]
    exact ⟨hfail, execOf_eq_of_not_ok hfail⟩

/-- Witness for C1: a failing ETH oracle makes fund and repay revert with
the pre-state intact, and a failing NFT oracle does the same for
liquidate. -/
theorem transfer_failure_atomicity_witness :
    (exOk (fundLoanRequest envNoEth state1 2 100 0) = false ∧
     execOf state1 (fundLoanRequest envNoEth state1 2 100 0) = state1) ∧
    (exOk (repayLoan envNoEth stateLoan 1 1050000 0) = false ∧
     execOf stateLoan (repayLoan envNoEth stateLoan 1 1050000 0) = stateLoan ∧
     ((execOf stateLoan (repayLoan envNoEth stateLoan 1 1050000 0)).activeLoans 0).isRepaid =
       (stateLoan.activeLoans 0).isRepaid) ∧
    (exOk (liquidateExpiredLoan envNoNft stateLoan 2 0) = false ∧
     execOf stateLoan (liquidateExpiredLoan envNoNft stateLoan 2 0) = stateLoan) :=
  ⟨(transfer_failure_atomicity envNoEth state1 2 100 0).1 rfl,
   (transfer_failure_atomicity envNoEth stateLoan 1 1050000 0).2.1 (Or.inl rfl),
   (transfer_failure_atomicity envNoNft stateLoan 2 0 0).2.2 rfl⟩

set_option maxHeartbeats 1600000 in
/-- C5: idempotence of terminality.  On a request whose status has left
`ACTIVE`, every further `cancel`, `expire`, `fund` reverts leaving the
storage untouched; on a closed loan every further `repay`, `liquidate`
reverts likewise; and no transaction whatsoever rewrites a created
non-`ACTIVE` request slot or a closed loan slot, so no record ever
returns to `Active`/open. -/
theorem terminal_records_are_final (env : Env) (s : ChainState)
    (sender value id : Nat) :
    ((s.loanRequests id).status ≠ RequestStatus.ACTIVE →
       exOk (cancelLoanRequest env s sender id) = false ∧
       exOk (expireLoanRequest env s sender id) = false ∧
       exOk (fundLoanRequest env s sender value id) = false ∧
       execOf s (cancelLoanRequest env s sender id) = s ∧
       execOf s (expireLoanRequest env s sender id) = s ∧
       execOf s (fundLoanRequest env s sender value id) = s) ∧
    ((s.activeLoans id).isRepaid = true →
       exOk (repayLoan env s sender value id) = false ∧
       exOk (liquidateExpiredLoan env s sender id) = false ∧
       execOf s (repayLoan env s sender value id) = s ∧
       execOf s (liquidateExpiredLoan env s sender id) = s) ∧
    (∀ op : Op, id < s.totalRequests →
       (s.loanRequests id).status ≠ RequestStatus.ACTIVE →
       (execStep env s op).loanRequests id = s.loanRequests id) ∧
    (∀ op : Op, id < s.totalLoans →
       (s.activeLoans id).isRepaid = true →
       (execStep env s op).activeLoans id = s.activeLoans id) := by
  refine ⟨?_, ?_, ?_, ?_⟩
  · intro hSt
    have hc : exOk (cancelLoanRequest env s sender id) = false := by
      simp only [cancelLoanRequest]
      split_ifs <;> simp_all [exOk]
    have he : exOk (expireLoanRequest env s sender id) = false := by
      simp only [expireLoanRequest]
      split_ifs <;> simp_all [exOk]
    have hf : exOk (fundLoanRequest env s sender value id) = false := by
      simp only [fundLoanRequest]
      split_ifs <;> simp_all [exOk]
    exact ⟨hc, he, hf, execOf_eq_of_not_ok hc, execOf_eq_of_not_ok he,
      execOf_eq_of_not_ok hf⟩
  · intro hCl
    have hr : exOk (repayLoan env s sender value id) = false := by
      simp only [repayLoan]
      split_ifs <;> simp_all [exOk]
    have hl : exOk (liquidateExpiredLoan env s sender id) = false := by
      simp only [liquidateExpiredLoan]
      split_ifs <;> simp_all [exOk]
    exact ⟨hr, hl, execOf_eq_of_not_ok hr, execOf_eq_of_not_ok hl⟩
  · intro op hid hSt
    cases op with
    | create sender2 a d r c =>
      simp only [execStep, step, createLoanRequest]
      split_ifs
      all_goals try rfl
      simp only [execOf, setRequest]
      have hne : ¬ id = s.totalRequests := by omega
      simp [hne]
    | expire sender2 id0 =>
      simp only [execStep, step, expireLoanRequest]
      split_ifs with g1 g2 g3 g4 g5
      all_goals try rfl
      simp only [execOf, setRequest]
      by_cases he : id = id0
      · rw [he] at hSt
        exact absurd g2 hSt
      · simp [he]
    | cancel sender2 id0 =>
      simp only [execStep, step, cancelLoanRequest]
      split_ifs with g1 g2 g3 g4
      all_goals try rfl
      simp only [execOf, setRequest]
      by_cases he : id = id0
      · rw [he] at hSt
        exact absurd g3 hSt
      · simp [he]
    | fund sender2 v id0 =>
      simp only [execStep, step, fundLoanRequest]
      split_ifs with g1 g2 g3 g4 g5 g6
      all_goals try rfl
      simp only [execOf, setRequest, setLoan]
      by_cases he : id = id0
      · rw [he] at hSt
        exact absurd g2 hSt
      · simp [he]
    | repay sender2 v id0 =>
      simp only [execStep, step, repayLoan]
      split_ifs
      all_goals rfl
    | liquidate sender2 id0 =>
      simp only [execStep, step, liquidateExpiredLoan]
      split_ifs
      all_goals rfl
  · intro op hid hCl
    cases op with
    | create sender2 a d r c =>
      simp only [execStep, step, createLoanRequest]
      split_ifs
      all_goals rfl
    | expire sender2 id0 =>
      simp only [execStep, step, expireLoanRequest]
      split_ifs
      all_goals rfl
    | cancel sender2 id0 =>
      simp only [execStep, step, cancelLoanRequest]
      split_ifs
      all_goals rfl
    | fund sender2 v id0 =>
      simp only [execStep, step, fundLoanRequest]
      split_ifs
      all_goals try rfl
      simp only [execOf, setRequest, setLoan]
      have hne : ¬ id = s.totalLoans := by omega
      simp [hne]
    | repay sender2 v id0 =>
      by_cases he : id = id0
      · subst he
        simp only [execStep, step, repayLoan]
        split_ifs <;> first | rfl | simp_all
      · simp only [execStep, step, repayLoan]
        split_ifs <;> first | rfl | simp [execOf, setLoan, he]
    | liquidate sender2 id0 =>
      by_cases he : id = id0
      · subst he
        simp only [execStep, step, liquidateExpiredLoan]
        split_ifs <;> first | rfl | simp_all
      · simp only [execStep, step, liquidateExpiredLoan]
        split_ifs <;> first | rfl | simp [execOf, setLoan, he]

/-- Witness for C5 at the cancelled request `stateCancelled` and the closed
loan `stateLoanClosed`. -/
theorem terminal_records_are_final_witness :
    (exOk (cancelLoanRequest envAll stateCancelled 1 0) = false ∧
     exOk (expireLoanRequest envAll stateCancelled 1 0) = false ∧
     exOk (fundLoanRequest envAll stateCancelled 1 100 0) = false ∧
     execOf stateCancelled (cancelLoanRequest envAll stateCancelled 1 0) = stateCancelled ∧
     execOf stateCancelled (expireLoanRequest envAll stateCancelled 1 0) = stateCancelled ∧
     execOf stateCancelled (fundLoanRequest envAll stateCancelled 1 100 0) = stateCancelled) ∧
    (exOk (repayLoan envAll stateLoanClosed 1 1050000 0) = false ∧
     exOk (liquidateExpiredLoan envAll stateLoanClosed 1 0) = false ∧
     execOf stateLoanClosed (repayLoan envAll stateLoanClosed 1 1050000 0) = stateLoanClosed ∧
     execOf stateLoanClosed (liquidateExpiredLoan envAll stateLoanClosed 1 0) = stateLoanClosed) ∧
    (execStep envAll stateCancelled (Op.cancel 1 0)).loanRequests 0 =
      stateCancelled.loanRequests 0 ∧
    (execStep envAll stateLoanClosed (Op.repay 1 2000000 0)).activeLoans 0 =
      stateLoanClosed.activeLoans 0 :=
  ⟨(terminal_records_are_final envAll stateCancelled 1 100 0).1 (by decide),
   (terminal_records_are_final envAll stateLoanClosed 1 1050000 0).2.1 rfl,
   (terminal_records_are_final envAll stateCancelled 1 100 0).2.2.1
     (Op.cancel 1 0) (by decide) (by decide),
   (terminal_records_are_final envAll stateLoanClosed 1 2000000 0).2.2.2
     (Op.repay 1 2000000 0) (by decide) rfl⟩

/-- C10: in every reachable storage and for every created request id, the
boolean `loanRequests[id].isActive` agrees with the enum
`requestStatus[id] == ACTIVE`: the two representations can never disagree. -/
theorem isActive_status_consistent (s : ChainState) (h : Reachable s) :
    ∀ id, id < s.totalRequests →
      ((s.loanRequests id).req.isActive = true ↔
       (s.loanRequests id).status = RequestStatus.ACTIVE) :=
  (reachable_inv h).2

/-- Witness for C10 on the reachable storage produced by one successful
`createLoanRequest`. -/
theorem isActive_status_consistent_witness :
    (execStep envAll initialState (Op.create 1 100 3 5 7)).totalRequests = 1 ∧
    (((execStep envAll initialState (Op.create 1 100 3 5 7)).loanRequests 0).req.isActive = true ↔
     ((execStep envAll initialState (Op.create 1 100 3 5 7)).loanRequests 0).status =
       RequestStatus.ACTIVE) :=
  ⟨rfl, isActive_status_consistent _
     (Reachable.next envAll (Op.create 1 100 3 5 7) initialState Reachable.init)
     0 (by decide)⟩

/-- C7 is false as stated: on an id for which no request was ever created,
`cancel`, `fund` and `expire` all fail with `RequestNotActive` — the very
same "Request is not active" error raised on an existing but cancelled
record (last conjunct) — not with a distinct not-found error; the code has
no separate existence check. -/
theorem never_created_error_counterexample :
    cancelLoanRequest envAll initialState 1 0 = .error .RequestNotActive ∧
    fundLoanRequest envAll initialState 2 100 0 = .error .RequestNotActive ∧
    expireLoanRequest envAll initialState 3 0 = .error .RequestNotActive ∧
    cancelLoanRequest envAll stateCancelled 1 0 = .error .RequestNotActive :=
  ⟨rfl, rfl, rfl, rfl⟩

/-- C7 (amended): for every reachable storage and every id on which no
request was ever created, `cancel`, `fund` and `expire` fail — but with the
same `RequestNotActive` error that an existing non-`ACTIVE` record raises,
since the code checks `request.isActive` first and a never-written mapping
slot holds the default `isActive = false`; there is no distinct not-found
error. -/
theorem never_created_same_error (env : Env) (s : ChainState)
    (sender value id : Nat) (hs : Reachable s) (hid : s.totalRequests ≤ id) :
    cancelLoanRequest env s sender id = .error .RequestNotActive ∧
    fundLoanRequest env s sender value id = .error .RequestNotActive ∧
    expireLoanRequest env s sender id = .error .RequestNotActive := by
  have hdef := (reachable_inv hs).1 id hid
  refine ⟨?_, ?_, ?_⟩
  · simp [cancelLoanRequest, hdef, defaultRequestEntry, defaultLoanRequest]
  · simp [fundLoanRequest, hdef, defaultRequestEntry, defaultLoanRequest]
  · simp [expireLoanRequest, hdef, defaultRequestEntry, defaultLoanRequest]

/-- Witness for the amended C7 at the freshly constructed contract and
id `0`. -/
theorem never_created_same_error_witness :
    cancelLoanRequest envAll initialState 5 0 = .error .RequestNotActive ∧
    fundLoanRequest envAll initialState 5 100 0 = .error .RequestNotActive ∧
    expireLoanRequest envAll initialState 5 0 = .error .RequestNotActive :=
  never_created_same_error envAll initialState 5 100 0 Reachable.init
    (Nat.zero_le 0)

/-- C9 is false as stated: in the earlier revision (part_006 lines 99-113),
a successful `cancelLoanRequest` rewrites the stored `collateralTokenId`
from `5` to `0` (after capturing it for the transfer-out), so cancel does
not leave the stored field exactly as it was at creation. -/
theorem cancel_zeroes_collateral_counterexample :
    (stateV1.loanRequests 0).collateralTokenId = 5 ∧
    exOk (cancelLoanRequestV1 envAll stateV1 1 0) = true ∧
    ((execOfV1 stateV1 (cancelLoanRequestV1 envAll stateV1 1 0)).loanRequests 0).collateralTokenId = 0 :=
  ⟨rfl, rfl, rfl⟩

/-- C9 (amended): in the enum-based revision, no operation modifies a
created request's stored `collateralTokenId` — nor its `borrower`,
`loanAmount`, `durationInDays`, `interestRate` or `createdAt`; in
particular cancel changes only `isActive` and the status.  The earlier
revision's cancel, by contrast, zeroes the stored `collateralTokenId`
(see the counterexample). -/
theorem collateral_immutable_enum_revision (env : Env) (s : ChainState)
    (op : Op) (id : Nat) (hid : id < s.totalRequests) :
    ((execStep env s op).loanRequests id).req.collateralTokenId =
      (s.loanRequests id).req.collateralTokenId ∧
    ((execStep env s op).loanRequests id).req.borrower =
      (s.loanRequests id).req.borrower ∧
    ((execStep env s op).loanRequests id).req.loanAmount =
      (s.loanRequests id).req.loanAmount ∧
    ((execStep env s op).loanRequests id).req.durationInDays =
      (s.loanRequests id).req.durationInDays ∧
    ((execStep env s op).loanRequests id).req.interestRate =
      (s.loanRequests id).req.interestRate ∧
    ((execStep env s op).loanRequests id).createdAt =
      (s.loanRequests id).createdAt := by
  cases op with
  | create sender2 a d r c =>
    simp only [execStep, step, createLoanRequest]
    split_ifs
    all_goals try exact ⟨rfl, rfl, rfl, rfl, rfl, rfl⟩
    have hne : ¬ id = s.totalRequests := by omega
    simp [execOf, setRequest, hne]
  | expire sender2 id0 =>
    simp only [execStep, step, expireLoanRequest]
    split_ifs
    all_goals try exact ⟨rfl, rfl, rfl, rfl, rfl, rfl⟩
    by_cases he : id = id0
    · subst he
      simp [execOf, setRequest]
    · simp [execOf, setRequest, he]
  | cancel sender2 id0 =>
    simp only [execStep, step, cancelLoanRequest]
    split_ifs
    all_goals try exact ⟨rfl, rfl, rfl, rfl, rfl, rfl⟩
    by_cases he : id = id0
    · subst he
      simp [execOf, setRequest]
    · simp [execOf, setRequest, he]
  | fund sender2 v id0 =>
    simp only [execStep, step, fundLoanRequest]
    split_ifs
    all_goals try exact ⟨rfl, rfl, rfl, rfl, rfl, rfl⟩
    by_cases he : id = id0
    · subst he
      simp [execOf, setRequest, setLoan]
    · simp [execOf, setRequest, setLoan, he]
  | repay sender2 v id0 =>
    simp only [execStep, step, repayLoan]
    split_ifs
    all_goals exact ⟨rfl, rfl, rfl, rfl, rfl, rfl⟩
  | liquidate sender2 id0 =>
    simp only [execStep, step, liquidateExpiredLoan]
    split_ifs
    all_goals exact ⟨rfl, rfl, rfl, rfl, rfl, rfl⟩

/-- Witness for the amended C9: cancelling the live request of `state1`
leaves the stored `collateralTokenId` (and the other creation-time fields)
untouched. -/
theorem collateral_immutable_enum_revision_witness :
    ((execStep envAll state1 (Op.cancel 1 0)).loanRequests 0).req.collateralTokenId =
      (state1.loanRequests 0).req.collateralTokenId ∧
    ((execStep envAll state1 (Op.cancel 1 0)).loanRequests 0).req.borrower =
      (state1.loanRequests 0).req.borrower ∧
    ((execStep envAll state1 (Op.cancel 1 0)).loanRequests 0).req.loanAmount =
      (state1.loanRequests 0).req.loanAmount ∧
    ((execStep envAll state1 (Op.cancel 1 0)).loanRequests 0).req.durationInDays =
      (state1.loanRequests 0).req.durationInDays ∧
    ((execStep envAll state1 (Op.cancel 1 0)).loanRequests 0).req.interestRate =
      (state1.loanRequests 0).req.interestRate ∧
    ((execStep envAll state1 (Op.cancel 1 0)).loanRequests 0).createdAt =
      (state1.loanRequests 0).createdAt :=
  collateral_immutable_enum_revision envAll state1 (Op.cancel 1 0) 0 (by decide)

end LendingPlatform
